import Mathlib

/-!
Verification of the message batching and trigger engine of the Feishu channel
plugin.  The definitions below are a shallow embedding of the TypeScript
sources:

* `src/core/batch-processor.ts` — the per-chat batch state machine
  (`BatchProcessor`): buffer, trigger gating, debounce / max-wait /
  auto-reply timers, flush paths;
* `src/core/gateway.ts` — the event gateway: dedup ledger, per-chat
  watermarks, max-age filter, and the per-chat serial task queue.

Timers (`setTimeout` handles) are modelled as `Option Nat` fields holding the
armed delay; a timer field is `none` when no timer is armed.  Each timer field
has a fixed callback in the source (the debounce and max-wait timers fire
`flushIfTriggered`, the auto-reply timer fires `checkAutoReplyConditions`), so
the callback needs no representation.  Firing a one-shot timer consumes it, so
the fire transitions clear the corresponding field before running the
callback.  Wall-clock reads (`Date.now()`) become explicit `now : Nat`
arguments.  The awaited `onFlush` collaborator is modelled as a function
returning `Except String Unit`; an `error` value models a thrown exception.
-/

set_option maxHeartbeats 1000000

namespace FeishuPlugin

/-! ### Association-list maps (for the `Map` objects in the source) -/

/-- Lookup in an association list, mirroring `Map.get`. -/
def mapLookup {α : Type} : List (String × α) → String → Option α
  | [], _ => none
  | kv :: rest, k => if kv.1 = k then some kv.2 else mapLookup rest k

/-- Insert/overwrite in an association list, mirroring `Map.set`. -/
def mapInsert {α : Type} : List (String × α) → String → α → List (String × α)
  | [], k, v => [(k, v)]
  | kv :: rest, k, v => if kv.1 = k then (k, v) :: rest else kv :: mapInsert rest k v

/-- Delete from an association list, mirroring `Map.delete`. -/
def mapErase {α : Type} : List (String × α) → String → List (String × α)
  | [], _ => []
  | kv :: rest, k => if kv.1 = k then mapErase rest k else kv :: mapErase rest k

/-! ### Batch processor data model (`batch-processor.ts`) -/

/-- Constants of `batch-processor.ts`. -/
def STARTUP_WINDOW_MS : Nat := 10000

/-- `REALTIME_DEBOUNCE_MS = 2_000`. -/
def REALTIME_DEBOUNCE_MS : Nat := 2000

/-- `MAX_BATCH_WAIT_MS = 10_000`. -/
def MAX_BATCH_WAIT_MS : Nat := 10000

/-- `AUTO_REPLY_MIN_MESSAGES = 5`. -/
def AUTO_REPLY_MIN_MESSAGES : Nat := 5

/-- `AUTO_REPLY_MIN_TIME_MS = 60_000`. -/
def AUTO_REPLY_MIN_TIME_MS : Nat := 60000

/-- `AUTO_REPLY_DEBOUNCE_MS = 3_000`. -/
def AUTO_REPLY_DEBOUNCE_MS : Nat := 3000

/-- The fields of a parsed message that the batching logic inspects. -/
structure ParsedMessage where
  chatId : String
  messageId : String
  text : String
  mentionedBot : Bool
deriving Repr, DecidableEq

/-- A buffered message.  The raw transport event that accompanies the parsed
message in the source (`{ parsed, event }`) is opaque to the batching logic,
so the model keeps only the parsed part; the trigger context
`{ parsed, event }` is likewise represented by the buffered message itself. -/
structure BufferedMessage where
  parsed : ParsedMessage
deriving Repr, DecidableEq

/-- A trigger: a named predicate over the trigger context
(`interface Trigger` in `triggers/index.ts`). -/
structure Trigger where
  name : String
  check : BufferedMessage → Bool

/-- The shipped mention trigger (`triggers/mention.ts`): matches when the
parsed message indicates the bot was mentioned. -/
def mentionTrigger : Trigger where
  name := "mention"
  check := fun ctx => ctx.parsed.mentionedBot

/-- `mode: "startup" | "realtime"`. -/
inductive Mode
  | startup
  | realtime
deriving Repr, DecidableEq

/-- `ChatBatchState` of `batch-processor.ts`.  Timer fields hold the armed
delay (`none` = not armed). -/
structure ChatBatchState where
  chatId : String
  mode : Mode
  buffer : List BufferedMessage
  hasTrigger : Bool
  triggerMessage : Option BufferedMessage
  debounceTimer : Option Nat
  maxWaitTimer : Option Nat
  autoReplyTimer : Option Nat
  lastMessageAt : Nat
  startupEndsAt : Nat
  firstTriggerAt : Option Nat
  firstMessageAt : Option Nat
deriving Repr, DecidableEq

/-- `AutoReplyConfig` of `config/schema.ts` (all fields optional; the schema
constrains `minMessages` to be at least 1 when present). -/
structure AutoReplyConfig where
  enabled : Option Bool := none
  minMessages : Option Nat := none
  minTimeMs : Option Nat := none
  debounceMs : Option Nat := none
deriving Repr, DecidableEq

/-- `FlushParams` handed to the `onFlush` collaborator. -/
structure FlushParams where
  chatId : String
  messages : List BufferedMessage
  triggerMessage : Option BufferedMessage
  isAutoReply : Bool
deriving Repr, DecidableEq

/-- The immutable part of a `BatchProcessor` instance (constructor options).
The mutable `chatStates` map is passed explicitly to the operations. -/
structure BatchProcessor where
  triggers : List Trigger
  connectedAt : Nat
  autoReplyConfig : Option AutoReplyConfig

/-- `this.autoReplyConfig?.enabled` coerced to a boolean. -/
def BatchProcessor.autoReplyEnabled (p : BatchProcessor) : Bool :=
  match p.autoReplyConfig with
  | some c => c.enabled.getD false
  | none => false

/-- `this.autoReplyConfig?.minMessages ?? AUTO_REPLY_MIN_MESSAGES`. -/
def BatchProcessor.autoReplyMinMessages (p : BatchProcessor) : Nat :=
  match p.autoReplyConfig with
  | some c => c.minMessages.getD AUTO_REPLY_MIN_MESSAGES
  | none => AUTO_REPLY_MIN_MESSAGES

/-- `this.autoReplyConfig?.minTimeMs ?? AUTO_REPLY_MIN_TIME_MS`. -/
def BatchProcessor.autoReplyMinTimeMs (p : BatchProcessor) : Nat :=
  match p.autoReplyConfig with
  | some c => c.minTimeMs.getD AUTO_REPLY_MIN_TIME_MS
  | none => AUTO_REPLY_MIN_TIME_MS

/-- `this.autoReplyConfig?.debounceMs ?? AUTO_REPLY_DEBOUNCE_MS`. -/
def BatchProcessor.autoReplyDebounceMs (p : BatchProcessor) : Nat :=
  match p.autoReplyConfig with
  | some c => c.debounceMs.getD AUTO_REPLY_DEBOUNCE_MS
  | none => AUTO_REPLY_DEBOUNCE_MS

/-- `const triggered = this.triggers.some((t) => t.check(ctx))`. -/
def triggerMatched (p : BatchProcessor) (buffered : BufferedMessage) : Bool :=
  p.triggers.any fun t => t.check buffered

/-! ### Batch processor operations -/

/-- `clearDebounceTimer`. -/
def clearDebounceTimer (s : ChatBatchState) : ChatBatchState :=
  { s with debounceTimer := none }

/-- `clearMaxWaitTimer`. -/
def clearMaxWaitTimer (s : ChatBatchState) : ChatBatchState :=
  { s with maxWaitTimer := none }

/-- `clearAutoReplyTimer`. -/
def clearAutoReplyTimer (s : ChatBatchState) : ChatBatchState :=
  { s with autoReplyTimer := none }

/-- `resetState`: clears the buffer and trigger fields, resets the mode and
`firstMessageAt`.  As in the source it does not touch the timer fields (the
callers clear those first). -/
def resetState (s : ChatBatchState) (now : Nat) : ChatBatchState :=
  { s with
    buffer := []
    hasTrigger := false
    triggerMessage := none
    mode := Mode.realtime
    firstTriggerAt := none
    firstMessageAt := some now }

/-- `scheduleStartupFlush`: arm the debounce timer for the time remaining in
the startup window, unless one is already armed.  `Math.max(0, startupEndsAt -
now)` coincides with truncated `Nat` subtraction. -/
def scheduleStartupFlush (s : ChatBatchState) (now : Nat) : ChatBatchState :=
  if s.debounceTimer.isSome then s
  else { s with debounceTimer := some (s.startupEndsAt - now) }

/-- `scheduleAutoReplyCheck`: arm the auto-reply debounce timer. -/
def scheduleAutoReplyCheck (p : BatchProcessor) (s : ChatBatchState) : ChatBatchState :=
  { s with autoReplyTimer := some p.autoReplyDebounceMs }

/-- `scheduleRealtimeFlush`: with a trigger, arm the realtime debounce timer;
without one, either do nothing (auto-reply disabled) or arm the auto-reply
debounce timer. -/
def scheduleRealtimeFlush (p : BatchProcessor) (s : ChatBatchState) : ChatBatchState :=
  if s.hasTrigger then { s with debounceTimer := some REALTIME_DEBOUNCE_MS }
  else if !p.autoReplyEnabled then s
  else scheduleAutoReplyCheck p s

/-- `scheduleMaxWaitFlush`: clear any existing max-wait timer and arm a fresh
one for `MAX_BATCH_WAIT_MS`. -/
def scheduleMaxWaitFlush (s : ChatBatchState) : ChatBatchState :=
  { (clearMaxWaitTimer s) with maxWaitTimer := some MAX_BATCH_WAIT_MS }

/-- `scheduleTimeConditionCheck`: clear any existing auto-reply timer and arm
one for `delayMs`; on fire it re-runs `checkAutoReplyConditions`. -/
def scheduleTimeConditionCheck (s : ChatBatchState) (delayMs : Nat) : ChatBatchState :=
  { (clearAutoReplyTimer s) with autoReplyTimer := some delayMs }

/-- The fresh state created by `processMessage` for an unseen chat. -/
def initialChatState (chatId : String) (connectedAt now : Nat) : ChatBatchState where
  chatId := chatId
  mode := if now - connectedAt < STARTUP_WINDOW_MS then Mode.startup else Mode.realtime
  buffer := []
  hasTrigger := false
  triggerMessage := none
  debounceTimer := none
  maxWaitTimer := none
  autoReplyTimer := none
  lastMessageAt := now
  startupEndsAt := connectedAt + STARTUP_WINDOW_MS
  firstTriggerAt := none
  firstMessageAt := some now

/-- The body of `processMessage` acting on one chat's state: append to the
buffer, evaluate triggers, update trigger bookkeeping, clear the debounce and
auto-reply timers, and dispatch to the mode-specific scheduler. -/
def processMessageState (p : BatchProcessor) (state : ChatBatchState)
    (parsed : ParsedMessage) (now : Nat) : ChatBatchState :=
  let buffered : BufferedMessage := ⟨parsed⟩
  let s0 := { state with buffer := state.buffer ++ [buffered], lastMessageAt := now }
  let triggered := triggerMatched p buffered
  let s1 :=
    if triggered && !s0.hasTrigger then
      scheduleMaxWaitFlush (clearAutoReplyTimer
        { s0 with
          hasTrigger := true
          triggerMessage := some buffered
          firstTriggerAt := some now })
    else if triggered && s0.hasTrigger then
      { s0 with triggerMessage := some buffered }
    else s0
  let s2 := clearAutoReplyTimer (clearDebounceTimer s1)
  if s2.mode = Mode.startup then scheduleStartupFlush s2 now
  else scheduleRealtimeFlush p s2

/-- The result of a flush-path call: the chat state afterwards, the payloads
handed to `onFlush` (in order), and the error messages logged. -/
structure FlushEffect where
  state : ChatBatchState
  emitted : List FlushParams
  loggedErrors : List String
deriving Repr, DecidableEq

/-- `flushIfTriggered`: clear all timers; without a trigger (or without a
trigger message) only reset the mode to realtime; with one, snapshot the
buffer and trigger message, reset the state, then hand the payload to
`onFlush`, logging and swallowing any error. -/
def flushIfTriggered (onFlush : FlushParams → Except String Unit)
    (state : ChatBatchState) (now : Nat) : FlushEffect :=
  let s := clearAutoReplyTimer (clearMaxWaitTimer (clearDebounceTimer state))
  match s.hasTrigger, s.triggerMessage with
  | true, some trigMsg =>
    let messages := s.buffer
    let cleared := resetState s now
    let params : FlushParams := ⟨s.chatId, messages, some trigMsg, false⟩
    match onFlush params with
    | Except.ok _ => ⟨cleared, [params], []⟩
    | Except.error e => ⟨cleared, [params], ["BatchProcessor flush error: " ++ e]⟩
  | _, _ => ⟨{ s with mode := Mode.realtime }, [], []⟩

/-- `flushAutoReply`: clear all timers; with an empty buffer do nothing;
otherwise snapshot the buffer, reset the state, then hand the auto-reply
payload to `onFlush`, logging and swallowing any error. -/
def flushAutoReply (onFlush : FlushParams → Except String Unit)
    (state : ChatBatchState) (now : Nat) : FlushEffect :=
  let s := clearAutoReplyTimer (clearMaxWaitTimer (clearDebounceTimer state))
  if s.buffer.isEmpty then ⟨s, [], []⟩
  else
    let messages := s.buffer
    let cleared := resetState s now
    let params : FlushParams := ⟨s.chatId, messages, none, true⟩
    match onFlush params with
    | Except.ok _ => ⟨cleared, [params], []⟩
    | Except.error e => ⟨cleared, [params], ["BatchProcessor auto-reply flush error: " ++ e]⟩

/-- `checkAutoReplyConditions`: with a trigger present, defer to the normal
flush path; otherwise flush iff both the message-count and the time-window
conditions hold, re-arm for the remaining time when only the count holds, and
keep buffering otherwise. -/
def checkAutoReplyConditions (p : BatchProcessor) (onFlush : FlushParams → Except String Unit)
    (state : ChatBatchState) (now : Nat) : FlushEffect :=
  if state.hasTrigger then ⟨state, [], []⟩
  else
    let minMessages := p.autoReplyMinMessages
    let minTimeMs := p.autoReplyMinTimeMs
    let messageCount := state.buffer.length
    let timeElapsed := now - state.firstMessageAt.getD now
    if minMessages ≤ messageCount ∧ minTimeMs ≤ timeElapsed then
      flushAutoReply onFlush state now
    else if minMessages ≤ messageCount ∧ timeElapsed < minTimeMs then
      ⟨scheduleTimeConditionCheck state (minTimeMs - timeElapsed), [], []⟩
    else ⟨state, [], []⟩

/-- A fired one-shot debounce timer is spent, so firing removes it and runs
its callback `flushIfTriggered` (the callback of both the startup and the
realtime debounce arms). -/
def fireDebounceTimer (onFlush : FlushParams → Except String Unit)
    (s : ChatBatchState) (now : Nat) : FlushEffect :=
  flushIfTriggered onFlush { s with debounceTimer := none } now

/-- Firing the max-wait timer: the spent timer is removed and its callback
`flushIfTriggered` runs. -/
def fireMaxWaitTimer (onFlush : FlushParams → Except String Unit)
    (s : ChatBatchState) (now : Nat) : FlushEffect :=
  flushIfTriggered onFlush { s with maxWaitTimer := none } now

/-- Firing the auto-reply timer: the spent timer is removed and its callback
`checkAutoReplyConditions` runs (the callback of both `scheduleAutoReplyCheck`
and `scheduleTimeConditionCheck`). -/
def fireAutoReplyTimer (p : BatchProcessor) (onFlush : FlushParams → Except String Unit)
    (s : ChatBatchState) (now : Nat) : FlushEffect :=
  checkAutoReplyConditions p onFlush { s with autoReplyTimer := none } now

/-- `processMessage` at the `chatStates` map level: look up or lazily create
the chat's state, then run the per-state body and store the result. -/
def BatchProcessor.processMessage (p : BatchProcessor)
    (chatStates : List (String × ChatBatchState)) (parsed : ParsedMessage)
    (now : Nat) : List (String × ChatBatchState) :=
  let state := (mapLookup chatStates parsed.chatId).getD
    (initialChatState parsed.chatId p.connectedAt now)
  mapInsert chatStates parsed.chatId (processMessageState p state parsed now)

/-- The public `flush(chatId)`: run `flushIfTriggered` on the chat's state if
one exists. -/
def BatchProcessor.flush (p : BatchProcessor) (onFlush : FlushParams → Except String Unit)
    (chatStates : List (String × ChatBatchState)) (chatId : String) (now : Nat) :
    List (String × ChatBatchState) × List FlushParams × List String :=
  match mapLookup chatStates chatId with
  | none => (chatStates, [], [])
  | some s =>
    let r := flushIfTriggered onFlush s now
    (mapInsert chatStates chatId r.state, r.emitted, r.loggedErrors)

/-- `dispose`: every timer of every state is cleared and the map emptied. -/
def BatchProcessor.dispose (_chatStates : List (String × ChatBatchState)) :
    List (String × ChatBatchState) := []

/-- Folding `processMessageState` over a list of (message, arrival time)
pairs: a chat's run of `processMessage` calls. -/
def processMessages (p : BatchProcessor) (s : ChatBatchState)
    (msgs : List (ParsedMessage × Nat)) : ChatBatchState :=
  msgs.foldl (fun st m => processMessageState p st m.1 m.2) s

/-! ### Gateway: dedup ledger, watermarks, serial queue (`gateway.ts`) -/

/-- `DEDUP_WINDOW_MS = 24 * 60 * 60 * 1000`. -/
def DEDUP_WINDOW_MS : Nat := 24 * 60 * 60 * 1000

/-- `MAX_MESSAGE_AGE_MS = 5 * 60 * 1000` (local constant of the
`im.message.receive_v1` handler). -/
def MAX_MESSAGE_AGE_MS : Nat := 5 * 60 * 1000

/-- `isStaleMessage`: a message is stale when its create time is at most the
chat's watermark (missing watermark counts as 0). -/
def isStaleMessage (chatWatermarks : List (String × Nat)) (chatId : String)
    (createTime : Nat) : Bool :=
  createTime ≤ (mapLookup chatWatermarks chatId).getD 0

/-- `updateWatermark`: raise the chat's watermark to `createTime` when that is
strictly larger than the current value (missing watermark counts as 0). -/
def updateWatermark (chatWatermarks : List (String × Nat)) (chatId : String)
    (createTime : Nat) : List (String × Nat) :=
  let cur := (mapLookup chatWatermarks chatId).getD 0
  if cur < createTime then mapInsert chatWatermarks chatId createTime
  else chatWatermarks

/-- `isDuplicateEvent`: return `true` and leave the ledger unchanged when the
id was already seen, otherwise record it (at the current time) and return
`false`. -/
def isDuplicateEvent (processedEvents : List (String × Nat)) (eventId : String)
    (now : Nat) : Bool × List (String × Nat) :=
  if (mapLookup processedEvents eventId).isSome then (true, processedEvents)
  else (false, mapInsert processedEvents eventId now)

/-- One run of the periodic cleanup sweep armed by `startDedupCleanup`:
delete every ledger entry whose timestamp is below `now - DEDUP_WINDOW_MS`
(truncated subtraction, as the JS comparison with a possibly negative cutoff
never fires for small `now` either). -/
def dedupSweep (processedEvents : List (String × Nat)) (now : Nat) :
    List (String × Nat) :=
  processedEvents.filter fun kv => !(kv.2 < now - DEDUP_WINDOW_MS)

/-! #### Serial per-chat queue -/

instance : DecidableEq (Except String Unit) := fun a b =>
  match a, b with
  | Except.ok (), Except.ok () => isTrue rfl
  | Except.error x, Except.error y =>
    if h : x = y then isTrue (by rw [h])
    else isFalse (fun hc => h (by injection hc))
  | Except.ok _, Except.error _ => isFalse (fun hc => Except.noConfusion hc)
  | Except.error _, Except.ok _ => isFalse (fun hc => Except.noConfusion hc)

/-- A queued task, identified by `id`; `run` is the outcome of awaiting it
(`error` models a throw/rejection). -/
structure QTask where
  id : Nat
  run : Except String Unit
deriving Repr, DecidableEq

/-- `ChatQueue`: the pending task list and the worker flag. -/
structure ChatQueue where
  messages : List QTask
  processing : Bool
deriving Repr, DecidableEq

/-- The worker's while-loop in `processQueue`: await the tasks strictly in
FIFO order, catching and logging a failed task and continuing with the next.
Returns the ids in execution order and the logged error messages. -/
def drainTasks : List QTask → List Nat × List String
  | [] => ([], [])
  | t :: rest =>
    let logged : List String :=
      match t.run with
      | Except.ok _ => []
      | Except.error e => ["Gateway queue error: " ++ e]
    let r := drainTasks rest
    (t.id :: r.1, logged ++ r.2)

/-- `processQueue`: no-op when the chat has no queue or a worker is already
draining it; otherwise drain the pending list and delete the chat's queue
entry.  Returns the new queue map, the executed task ids in order, and the
logged errors. -/
def processQueue (chatQueues : List (String × ChatQueue)) (chatId : String) :
    List (String × ChatQueue) × List Nat × List String :=
  match mapLookup chatQueues chatId with
  | none => (chatQueues, [], [])
  | some q =>
    if q.processing then (chatQueues, [], [])
    else
      let r := drainTasks q.messages
      (mapErase chatQueues chatId, r.1, r.2)

/-- `enqueueMessage`: append the task to the chat's pending list (creating the
queue if absent) and start a worker when none is running. -/
def enqueueMessage (chatQueues : List (String × ChatQueue)) (chatId : String)
    (task : QTask) : List (String × ChatQueue) × List Nat × List String :=
  let q := (mapLookup chatQueues chatId).getD ⟨[], false⟩
  let q2 : ChatQueue := { q with messages := q.messages ++ [task] }
  let m2 := mapInsert chatQueues chatId q2
  if q2.processing then (m2, [], []) else processQueue m2 chatId

/-! #### The `im.message.receive_v1` handler's filtering pipeline -/

/-- The fields of an inbound message event that the gateway handler reads.
`none` models an absent (`undefined`) field; `Number(create_time)` of an
absent message is `NaN`, which the model folds into `none`. -/
structure InboundEvent where
  eventId : Option String
  messageId : Option String
  chatId : Option String
  createTime : Option Nat
deriving Repr, DecidableEq

/-- `event.event_id ?? event.message?.message_id` (nullish coalescing: an
empty string is kept). -/
def dedupKeyOf (e : InboundEvent) : Option String :=
  match e.eventId with
  | some k => some k
  | none => e.messageId

/-- JS truthiness of an optional string: absent or empty is falsy. -/
def optStrTruthy : Option String → Bool
  | some s => s ≠ ""
  | none => false

/-- What the handler did with an inbound event. -/
inductive InboundOutcome
  | droppedDuplicate
  | droppedStale
  | droppedOld
  | enqueued (queueChatId : String)
deriving Repr, DecidableEq

/-- The handler's observable result: the outcome, the two gateway maps
afterwards, and whether the dedup ledger was consulted at all. -/
structure InboundResult where
  outcome : InboundOutcome
  processedEvents : List (String × Nat)
  chatWatermarks : List (String × Nat)
  dedupChecked : Bool
deriving Repr, DecidableEq

/-- The watermark / max-age part of the handler, after the dedup gate. -/
def handleReceiveAfterDedup (processedEvents chatWatermarks : List (String × Nat))
    (e : InboundEvent) (now : Nat) (dedupChecked : Bool) : InboundResult :=
  let chatOk := optStrTruthy e.chatId
  let ct := e.createTime.getD 0
  let ctOk : Bool := ct ≠ 0
  let cid := e.chatId.getD ""
  if chatOk && ctOk && isStaleMessage chatWatermarks cid ct then
    ⟨InboundOutcome.droppedStale, processedEvents, chatWatermarks, dedupChecked⟩
  else if ctOk && decide (MAX_MESSAGE_AGE_MS < now - ct) then
    ⟨InboundOutcome.droppedOld, processedEvents, chatWatermarks, dedupChecked⟩
  else
    let wm2 := if chatOk && ctOk then updateWatermark chatWatermarks cid ct
      else chatWatermarks
    ⟨InboundOutcome.enqueued (e.chatId.getD "unknown"), processedEvents, wm2, dedupChecked⟩

/-- The full filtering pipeline of the `im.message.receive_v1` handler:
dedup gate (`if (dedupKey && isDuplicateEvent(dedupKey))`, so a missing — or
empty, hence falsy — key skips the ledger entirely), then the watermark
staleness check, then the absolute max-age check, then the watermark advance
and the enqueue under `chatId ?? "unknown"`. -/
def handleReceive (processedEvents chatWatermarks : List (String × Nat))
    (e : InboundEvent) (now : Nat) : InboundResult :=
  let dedupKey := dedupKeyOf e
  if optStrTruthy dedupKey then
    let k := dedupKey.getD ""
    let d := isDuplicateEvent processedEvents k now
    if d.1 then ⟨InboundOutcome.droppedDuplicate, d.2, chatWatermarks, true⟩
    else handleReceiveAfterDedup d.2 chatWatermarks e now true
  else handleReceiveAfterDedup processedEvents chatWatermarks e now false

/-- The invariant of claim C5: a triggered batch always carries a trigger
message. -/
def TriggerInv (s : ChatBatchState) : Prop :=
  s.hasTrigger = true → s.triggerMessage.isSome = true

instance (s : ChatBatchState) : Decidable (TriggerInv s) := by
  unfold TriggerInv; infer_instance

/-! ### Concrete fixtures shared by witnesses and counterexamples -/

/-- A processor with the default mention trigger and no auto-reply config. -/
def sampleProcessor : BatchProcessor := ⟨[mentionTrigger], 0, none⟩

/-- A processor with auto-reply enabled and all other knobs defaulted. -/
def sampleAutoProcessor : BatchProcessor :=
  ⟨[mentionTrigger], 0, some { enabled := some true }⟩

/-- A plain group message that mentions nobody. -/
def samplePlain : ParsedMessage := ⟨"c", "m1", "hi", false⟩

/-- A message that mentions the bot. -/
def sampleMention : ParsedMessage := ⟨"c", "m2", "at-bot ping", true⟩

/-- An `onFlush` collaborator that succeeds. -/
def sampleOnFlushOk : FlushParams → Except String Unit := fun _ => Except.ok ()

/-- An `onFlush` collaborator that throws. -/
def sampleOnFlushErr : FlushParams → Except String Unit := fun _ => Except.error "boom"

/-- Realtime, untriggered state holding one plain message, with the auto-reply
debounce timer armed (reached by processing one plain message at t = 20000 on
`sampleAutoProcessor`). -/
def sampleUntriggered : ChatBatchState :=
  processMessageState sampleAutoProcessor (initialChatState "c" 0 20000) samplePlain 20000

/-- Realtime, triggered state holding one mention message (reached by
processing one mention at t = 20000 on `sampleProcessor`). -/
def sampleTriggered : ChatBatchState :=
  processMessageState sampleProcessor (initialChatState "c" 0 20000) sampleMention 20000

/-- An untriggered batch state after a flush attempt: all timers cancelled,
mode realtime, every other field untouched. -/
def timersClearedRealtime (s : ChatBatchState) : ChatBatchState :=
  { s with
      debounceTimer := none
      maxWaitTimer := none
      autoReplyTimer := none
      mode := Mode.realtime }

/-! ### Helper lemmas -/

theorem mapLookup_insert_self {α : Type} (m : List (String × α)) (k : String) (v : α) :
    mapLookup (mapInsert m k v) k = some v := by
  induction m with
  | nil => simp [mapInsert, mapLookup]
  | cons kv rest ih =>
    by_cases h : kv.1 = k
    · simp [mapInsert, mapLookup, h]
    · simp [mapInsert, mapLookup, h, ih]

theorem mapLookup_erase_self {α : Type} (m : List (String × α)) (k : String) :
    mapLookup (mapErase m k) k = none := by
  induction m with
  | nil => simp [mapErase, mapLookup]
  | cons kv rest ih =>
    by_cases h : kv.1 = k
    · simp [mapErase, h, ih]
    · simp [mapErase, mapLookup, h, ih]

theorem processMessageState_triggerMessage (p : BatchProcessor) (s : ChatBatchState)
    (parsed : ParsedMessage) (now : Nat) :
    (processMessageState p s parsed now).triggerMessage =
      if triggerMatched p ⟨parsed⟩ then some ⟨parsed⟩ else s.triggerMessage := by
  simp only [processMessageState, scheduleMaxWaitFlush, clearMaxWaitTimer,
    clearAutoReplyTimer, clearDebounceTimer, scheduleStartupFlush,
    scheduleRealtimeFlush, scheduleAutoReplyCheck]
  cases hm : triggerMatched p ⟨parsed⟩ <;> cases hT : s.hasTrigger <;>
    simp [hm, hT] <;> (try split) <;> (try simp) <;> (try split) <;> (try simp)

theorem processMessageState_hasTrigger (p : BatchProcessor) (s : ChatBatchState)
    (parsed : ParsedMessage) (now : Nat) :
    (processMessageState p s parsed now).hasTrigger =
      (s.hasTrigger || triggerMatched p ⟨parsed⟩) := by
  simp only [processMessageState, scheduleMaxWaitFlush, clearMaxWaitTimer,
    clearAutoReplyTimer, clearDebounceTimer, scheduleStartupFlush,
    scheduleRealtimeFlush, scheduleAutoReplyCheck]
  cases hm : triggerMatched p ⟨parsed⟩ <;> cases hT : s.hasTrigger <;>
    simp [hm, hT] <;> (try split) <;> (try simp) <;> (try split) <;> (try simp)

theorem processMessageState_maxWaitTimer_of_hasTrigger (p : BatchProcessor)
    (s : ChatBatchState) (parsed : ParsedMessage) (now : Nat)
    (hT : s.hasTrigger = true) :
    (processMessageState p s parsed now).maxWaitTimer = s.maxWaitTimer := by
  simp only [processMessageState, scheduleMaxWaitFlush, clearMaxWaitTimer,
    clearAutoReplyTimer, clearDebounceTimer, scheduleStartupFlush,
    scheduleRealtimeFlush, scheduleAutoReplyCheck]
  cases hm : triggerMatched p ⟨parsed⟩ <;>
    simp [hm, hT] <;> (try split) <;> (try simp) <;> (try split) <;> (try simp)

theorem processMessageState_firstTriggerAt_of_hasTrigger (p : BatchProcessor)
    (s : ChatBatchState) (parsed : ParsedMessage) (now : Nat)
    (hT : s.hasTrigger = true) :
    (processMessageState p s parsed now).firstTriggerAt = s.firstTriggerAt := by
  simp only [processMessageState, scheduleMaxWaitFlush, clearMaxWaitTimer,
    clearAutoReplyTimer, clearDebounceTimer, scheduleStartupFlush,
    scheduleRealtimeFlush, scheduleAutoReplyCheck]
  cases hm : triggerMatched p ⟨parsed⟩ <;>
    simp [hm, hT] <;> (try split) <;> (try simp) <;> (try split) <;> (try simp)

theorem processMessageState_buffer (p : BatchProcessor) (s : ChatBatchState)
    (parsed : ParsedMessage) (now : Nat) :
    (processMessageState p s parsed now).buffer = s.buffer ++ [⟨parsed⟩] := by
  simp only [processMessageState, scheduleMaxWaitFlush, clearMaxWaitTimer,
    clearAutoReplyTimer, clearDebounceTimer, scheduleStartupFlush,
    scheduleRealtimeFlush, scheduleAutoReplyCheck]
  cases hm : triggerMatched p ⟨parsed⟩ <;> cases hT : s.hasTrigger <;>
    simp [hm, hT] <;> (try split) <;> (try simp) <;> (try split) <;> (try simp)

theorem processMessageState_debounceTimer (p : BatchProcessor) (s : ChatBatchState)
    (parsed : ParsedMessage) (now : Nat) :
    (processMessageState p s parsed now).debounceTimer =
      (if s.mode = Mode.startup then some (s.startupEndsAt - now)
       else if s.hasTrigger || triggerMatched p ⟨parsed⟩ then some REALTIME_DEBOUNCE_MS
       else none) := by
  simp only [processMessageState, scheduleMaxWaitFlush, clearMaxWaitTimer,
    clearAutoReplyTimer, clearDebounceTimer, scheduleStartupFlush,
    scheduleRealtimeFlush, scheduleAutoReplyCheck]
  cases hm : triggerMatched p ⟨parsed⟩ <;> cases hT : s.hasTrigger <;>
    cases hMode : s.mode <;> simp [hm, hT, hMode] <;> (try split) <;> (try simp)

theorem flushIfTriggered_of_not_triggered (onFlush : FlushParams → Except String Unit)
    (s : ChatBatchState) (now : Nat) (hT : s.hasTrigger = false) :
    flushIfTriggered onFlush s now =
      ⟨{ s with
          debounceTimer := none
          maxWaitTimer := none
          autoReplyTimer := none
          mode := Mode.realtime }, [], []⟩ := by
  cases hm : s.triggerMessage <;>
    simp [flushIfTriggered, clearAutoReplyTimer, clearMaxWaitTimer,
      clearDebounceTimer, hT, hm]

theorem flushIfTriggered_of_triggered (onFlush : FlushParams → Except String Unit)
    (s : ChatBatchState) (now : Nat) (tm : BufferedMessage)
    (hT : s.hasTrigger = true) (hm : s.triggerMessage = some tm) :
    flushIfTriggered onFlush s now =
      ⟨{ s with
          buffer := []
          hasTrigger := false
          triggerMessage := none
          debounceTimer := none
          maxWaitTimer := none
          autoReplyTimer := none
          mode := Mode.realtime
          firstTriggerAt := none
          firstMessageAt := some now },
        [⟨s.chatId, s.buffer, some tm, false⟩],
        match onFlush ⟨s.chatId, s.buffer, some tm, false⟩ with
        | Except.ok _ => []
        | Except.error e => ["BatchProcessor flush error: " ++ e]⟩ := by
  simp only [flushIfTriggered, clearAutoReplyTimer, clearMaxWaitTimer,
    clearDebounceTimer, hT, hm, resetState]
  cases hf : onFlush ⟨s.chatId, s.buffer, some tm, false⟩ <;> simp [hf]

theorem flushAutoReply_of_nonempty (onFlush : FlushParams → Except String Unit)
    (s : ChatBatchState) (now : Nat) (h : s.buffer ≠ []) :
    flushAutoReply onFlush s now =
      ⟨{ s with
          buffer := []
          hasTrigger := false
          triggerMessage := none
          debounceTimer := none
          maxWaitTimer := none
          autoReplyTimer := none
          mode := Mode.realtime
          firstTriggerAt := none
          firstMessageAt := some now },
        [⟨s.chatId, s.buffer, none, true⟩],
        match onFlush ⟨s.chatId, s.buffer, none, true⟩ with
        | Except.ok _ => []
        | Except.error e => ["BatchProcessor auto-reply flush error: " ++ e]⟩ := by
  simp only [flushAutoReply, clearAutoReplyTimer, clearMaxWaitTimer,
    clearDebounceTimer, resetState, List.isEmpty_iff, h]
  cases hf : onFlush ⟨s.chatId, s.buffer, none, true⟩ <;> simp [hf, h]

theorem drainTasks_fst (ts : List QTask) : (drainTasks ts).1 = ts.map QTask.id := by
  induction ts with
  | nil => rfl
  | cons t rest ih => simp [drainTasks, ih]

theorem drainTasks_snd (ts : List QTask) :
    (drainTasks ts).2 = ts.filterMap (fun t =>
      match t.run with
      | Except.ok _ => none
      | Except.error e => some ("Gateway queue error: " ++ e)) := by
  induction ts with
  | nil => rfl
  | cons t rest ih => cases h : t.run <;> simp [drainTasks, h, ih]

theorem mapLookup_sweep_insert_expired {m : List (String × Nat)} {id : String}
    (h : mapLookup m id = none) (ts t2 : Nat) (hts : ts < t2 - DEDUP_WINDOW_MS) :
    mapLookup (dedupSweep (mapInsert m id ts) t2) id = none := by
  induction m with
  | nil =>
    show mapLookup (dedupSweep [(id, ts)] t2) id = none
    rw [dedupSweep, List.filter_cons, decide_eq_true hts]
    simp [mapLookup]
  | cons kv rest ih =>
    by_cases hk : kv.1 = id
    · simp [mapLookup, hk] at h
    · simp only [mapLookup, hk, if_neg] at h
      have ih2 := ih h
      by_cases hkeep : kv.2 < t2 - DEDUP_WINDOW_MS
      · simpa [mapInsert, dedupSweep, hk, hkeep, mapLookup] using ih2
      · simpa [mapInsert, dedupSweep, hk, hkeep, mapLookup] using ih2

theorem processMessages_triggerMessage_of_no_match (p : BatchProcessor)
    (rest : List (ParsedMessage × Nat)) :
    ∀ s : ChatBatchState, (∀ mt ∈ rest, triggerMatched p ⟨mt.1⟩ = false) →
      (processMessages p s rest).triggerMessage = s.triggerMessage := by
  induction rest with
  | nil => intro s _; rfl
  | cons m rest ih =>
    intro s h
    have hm : triggerMatched p ⟨m.1⟩ = false := h m (by simp)
    have hstep := processMessageState_triggerMessage p s m.1 m.2
    rw [hm] at hstep
    simp only [processMessages, List.foldl_cons]
    rw [show (List.foldl (fun st mt => processMessageState p st mt.1 mt.2)
        (processMessageState p s m.1 m.2) rest) =
        processMessages p (processMessageState p s m.1 m.2) rest from rfl]
    rw [ih _ (fun mt hmt => h mt (by simp [hmt]))]
    simpa using hstep

theorem triggerInv_flushIfTriggered (onFlush : FlushParams → Except String Unit)
    (s : ChatBatchState) (now : Nat) (h : TriggerInv s) :
    TriggerInv (flushIfTriggered onFlush s now).state := by
  cases hT : s.hasTrigger
  · rw [flushIfTriggered_of_not_triggered onFlush s now hT]
    intro hc
    simp at hc
    simp [hc] at hT
  · have hsome := h hT
    obtain ⟨tm, htm⟩ := Option.isSome_iff_exists.mp hsome
    rw [flushIfTriggered_of_triggered onFlush s now tm hT htm]
    intro hc
    simp at hc

theorem triggerInv_flushAutoReply (onFlush : FlushParams → Except String Unit)
    (s : ChatBatchState) (now : Nat) (h : TriggerInv s) :
    TriggerInv (flushAutoReply onFlush s now).state := by
  by_cases hb : s.buffer = []
  · simp only [flushAutoReply, clearAutoReplyTimer, clearMaxWaitTimer,
      clearDebounceTimer, hb]
    simp only [List.isEmpty_nil, if_pos]
    intro hc
    exact h hc
  · rw [flushAutoReply_of_nonempty onFlush s now hb]
    intro hc
    simp at hc

theorem triggerInv_checkAutoReplyConditions (p : BatchProcessor)
    (onFlush : FlushParams → Except String Unit) (s : ChatBatchState) (now : Nat)
    (h : TriggerInv s) :
    TriggerInv (checkAutoReplyConditions p onFlush s now).state := by
  simp only [checkAutoReplyConditions]
  split
  · exact h
  · split
    · exact triggerInv_flushAutoReply onFlush s now h
    · split
      · intro hc
        simp [scheduleTimeConditionCheck, clearAutoReplyTimer] at hc
        exact h hc
      · exact h

theorem triggerInv_processMessageState (p : BatchProcessor) (s : ChatBatchState)
    (parsed : ParsedMessage) (now : Nat) (h : TriggerInv s) :
    TriggerInv (processMessageState p s parsed now) := by
  intro hc
  rw [processMessageState_hasTrigger] at hc
  rw [processMessageState_triggerMessage]
  cases hm : triggerMatched p ⟨parsed⟩
  · simp [hm] at hc
    simp [hm]
    exact h hc
  · simp

theorem handleReceive_eq (pe wm : List (String × Nat)) (e : InboundEvent) (now : Nat) :
    handleReceive pe wm e now =
      match dedupKeyOf e with
      | some k =>
        if k = "" then handleReceiveAfterDedup pe wm e now false
        else if (mapLookup pe k).isSome then
          ⟨InboundOutcome.droppedDuplicate, pe, wm, true⟩
        else handleReceiveAfterDedup (mapInsert pe k now) wm e now true
      | none => handleReceiveAfterDedup pe wm e now false := by
  rw [handleReceive]
  cases hk : dedupKeyOf e with
  | none => simp [optStrTruthy]
  | some k =>
    by_cases hke : k = ""
    · simp [optStrTruthy, hke]
    · simp only [optStrTruthy, ne_eq, hke, not_false_eq_true, decide_True, if_true,
        Option.getD_some, isDuplicateEvent]
      by_cases hdup : (mapLookup pe k).isSome
      · simp [hdup, hke]
      · simp [hdup, hke]

theorem handleReceiveAfterDedup_stale (pe wm : List (String × Nat))
    (e : InboundEvent) (now : Nat) (b : Bool) (c : String) (t : Nat)
    (hc : e.chatId = some c) (hcne : c ≠ "")
    (hct : e.createTime = some t) (htne : t ≠ 0)
    (hstale : t ≤ (mapLookup wm c).getD 0) :
    handleReceiveAfterDedup pe wm e now b =
      ⟨InboundOutcome.droppedStale, pe, wm, b⟩ := by
  rw [handleReceiveAfterDedup]
  simp only [hc, hct, optStrTruthy, Option.getD_some, isStaleMessage]
  simp [hcne, htne, hstale]

theorem handleReceiveAfterDedup_fresh (pe wm : List (String × Nat))
    (e : InboundEvent) (now : Nat) (b : Bool) (c : String) (t : Nat)
    (hc : e.chatId = some c) (hcne : c ≠ "")
    (hct : e.createTime = some t) (htne : t ≠ 0)
    (hfresh : (mapLookup wm c).getD 0 < t)
    (hage : now - t ≤ MAX_MESSAGE_AGE_MS) :
    handleReceiveAfterDedup pe wm e now b =
      ⟨InboundOutcome.enqueued c, pe, mapInsert wm c t, b⟩ := by
  rw [handleReceiveAfterDedup]
  simp only [hc, hct, optStrTruthy, Option.getD_some, isStaleMessage, updateWatermark]
  have hns : ¬ t ≤ (mapLookup wm c).getD 0 := by omega
  have hna : ¬ MAX_MESSAGE_AGE_MS < now - t := by omega
  simp [hcne, htne, hns, hna, hfresh]

/-! ### Claim C9 -/

/-- Claim C9 (amended): `processMessage` cancels the debounce timer
unconditionally — the armed debounce timer after the call never depends on the
one armed before — but it re-arms one only when the batch is in startup mode
or is triggered after the message; in realtime mode with no trigger, no
debounce timer is armed, regardless of auto-reply configuration. -/
theorem debounce_cancelled_and_conditionally_rearmed (p : BatchProcessor)
    (s : ChatBatchState) (parsed : ParsedMessage) (now : Nat) :
    ((processMessageState p s parsed now).debounceTimer =
      (if s.mode = Mode.startup then some (s.startupEndsAt - now)
       else if s.hasTrigger || triggerMatched p ⟨parsed⟩ then some REALTIME_DEBOUNCE_MS
       else none))
    ∧ ∀ d : Option Nat,
      (processMessageState p { s with debounceTimer := d } parsed now).debounceTimer =
        (processMessageState p s parsed now).debounceTimer := by
  refine ⟨processMessageState_debounceTimer p s parsed now, fun d => ?_⟩
  rw [processMessageState_debounceTimer, processMessageState_debounceTimer]

/-- Claim C9 counterexample: in realtime mode with no trigger (and no
auto-reply configured), `processMessage` leaves the batch with no armed
debounce timer, contradicting "a debounce timer is armed ... regardless of
mode, trigger status, or auto-reply configuration". -/
theorem debounce_not_rearmed_cex :
    (processMessageState sampleProcessor (initialChatState "c" 0 20000)
      samplePlain 20000).debounceTimer = none := by decide

/-! ### Claim C1 -/

/-- Claim C1 (amended): for an untriggered batch, every firing of the flush
path (debounce fire — the same callback serves the startup-window fire —
max-wait fire, and an explicit `flush(conversationId)` call) hands nothing to
`onFlush` and logs nothing; the state change is limited to cancelling all
pending timers and setting the mode to realtime (buffer, trigger fields and
`firstMessageAt` unchanged).  Moreover a message matching no trigger leaves
`hasTrigger` at `false`, so a batch with zero trigger matches never produces a
flush payload. -/
theorem untriggered_flush_is_silent (p : BatchProcessor)
    (onFlush : FlushParams → Except String Unit) (s : ChatBatchState)
    (m : List (String × ChatBatchState)) (chatId : String)
    (parsed : ParsedMessage) (now : Nat) (hT : s.hasTrigger = false) :
    (flushIfTriggered onFlush s now = ⟨timersClearedRealtime s, [], []⟩)
    ∧ (fireDebounceTimer onFlush s now = ⟨timersClearedRealtime s, [], []⟩)
    ∧ (fireMaxWaitTimer onFlush s now = ⟨timersClearedRealtime s, [], []⟩)
    ∧ (mapLookup m chatId = some s →
        BatchProcessor.flush p onFlush m chatId now =
          (mapInsert m chatId (timersClearedRealtime s), [], []))
    ∧ (triggerMatched p ⟨parsed⟩ = false →
        (processMessageState p s parsed now).hasTrigger = false) := by
  have h1 : flushIfTriggered onFlush s now = ⟨timersClearedRealtime s, [], []⟩ := by
    rw [flushIfTriggered_of_not_triggered onFlush s now hT, timersClearedRealtime]
  have h2 : fireDebounceTimer onFlush s now = ⟨timersClearedRealtime s, [], []⟩ := by
    rw [fireDebounceTimer,
      flushIfTriggered_of_not_triggered onFlush { s with debounceTimer := none } now hT]
    simp [timersClearedRealtime]
  have h3 : fireMaxWaitTimer onFlush s now = ⟨timersClearedRealtime s, [], []⟩ := by
    rw [fireMaxWaitTimer,
      flushIfTriggered_of_not_triggered onFlush { s with maxWaitTimer := none } now hT]
    simp [timersClearedRealtime]
  refine ⟨h1, h2, h3, fun hlook => ?_, fun hm => ?_⟩
  · rw [BatchProcessor.flush, hlook]
    simp only [h1]
  · rw [processMessageState_hasTrigger, hT, hm]
    rfl

/-- Claim C1 witness: the silent-flush theorem applied to the concrete
untriggered state `sampleUntriggered`. -/
theorem untriggered_flush_is_silent_witness :
    flushIfTriggered sampleOnFlushOk sampleUntriggered 20001 =
      ⟨timersClearedRealtime sampleUntriggered, [], []⟩ :=
  (untriggered_flush_is_silent sampleAutoProcessor sampleOnFlushOk sampleUntriggered
    [] "c" samplePlain 20001 (by decide)).1

/-- Claim C1 counterexample: an explicit flush of a reachable untriggered
batch with an armed auto-reply timer emits nothing but cancels that timer, so
"the only state change is resetting mode to realtime" fails (the mode here was
already realtime and a timer field changed). -/
theorem untriggered_flush_state_change_cex :
    sampleUntriggered.hasTrigger = false
    ∧ sampleUntriggered.autoReplyTimer = some 3000
    ∧ (flushIfTriggered sampleOnFlushOk sampleUntriggered 20001).emitted = []
    ∧ (flushIfTriggered sampleOnFlushOk sampleUntriggered 20001).state ≠
        { sampleUntriggered with mode := Mode.realtime } := by decide

/-! ### Claim C3 -/

/-- Claim C3: once a batch is triggered, a further matching message only
replaces `triggerMessage` with the latest match; the max-wait timer and
`firstTriggerAt` are untouched (the max-wait timer is armed only at the first
trigger).  Consequently, after any run whose last matching message is
`parsed`, the stored trigger message — the one a flush would emit — is
`parsed`, never an earlier match. -/
theorem latest_trigger_message_wins (p : BatchProcessor) (s : ChatBatchState)
    (parsed : ParsedMessage) (now : Nat)
    (hT : s.hasTrigger = true) (hm : triggerMatched p ⟨parsed⟩ = true) :
    ((processMessageState p s parsed now).triggerMessage = some ⟨parsed⟩)
    ∧ ((processMessageState p s parsed now).maxWaitTimer = s.maxWaitTimer)
    ∧ ((processMessageState p s parsed now).firstTriggerAt = s.firstTriggerAt)
    ∧ ∀ (msgs rest : List (ParsedMessage × Nat)) (t : Nat),
        (∀ mt ∈ rest, triggerMatched p ⟨mt.1⟩ = false) →
        (processMessages p s (msgs ++ (parsed, t) :: rest)).triggerMessage
          = some ⟨parsed⟩ := by
  refine ⟨?_, processMessageState_maxWaitTimer_of_hasTrigger p s parsed now hT,
    processMessageState_firstTriggerAt_of_hasTrigger p s parsed now hT,
    fun msgs rest t hrest => ?_⟩
  · rw [processMessageState_triggerMessage, hm]
    rfl
  · have key : processMessages p s (msgs ++ (parsed, t) :: rest) =
        processMessages p (processMessageState p (processMessages p s msgs) parsed t) rest := by
      simp [processMessages, List.foldl_append]
    rw [key, processMessages_triggerMessage_of_no_match p rest _ hrest,
      processMessageState_triggerMessage, hm]
    rfl

/-- Claim C3 witness: on the already-triggered `sampleTriggered`, a second
mention becomes the stored trigger message without touching the max-wait
timer, and stays the stored trigger message after a later non-matching
message. -/
theorem latest_trigger_message_wins_witness :
    ((processMessageState sampleProcessor sampleTriggered sampleMention 21000).triggerMessage
      = some ⟨sampleMention⟩)
    ∧ ((processMessageState sampleProcessor sampleTriggered sampleMention 21000).maxWaitTimer
      = sampleTriggered.maxWaitTimer)
    ∧ ((processMessages sampleProcessor sampleTriggered
        ([] ++ (sampleMention, 21000) :: [(samplePlain, 22000)])).triggerMessage
      = some ⟨sampleMention⟩) :=
  have h := latest_trigger_message_wins sampleProcessor sampleTriggered sampleMention
    21000 (by decide) (by decide)
  ⟨h.1, h.2.1, h.2.2.2 [] [(samplePlain, 22000)] 21000 (by decide)⟩

/-! ### Claim C4 -/

/-- Claim C4: on both flush paths the batch state is fully cleared (buffer
empty, trigger flag and message gone, timers cancelled, mode realtime,
`firstMessageAt` reset) before the awaited `onFlush` hand-off is attempted:
the resulting state is the same record no matter what `onFlush` returns; a
throw is logged and swallowed; and a subsequent message starts a fresh
one-element buffer. -/
theorem flush_clears_state_before_handoff (p : BatchProcessor)
    (f g : FlushParams → Except String Unit) (s s2 : ChatBatchState)
    (tm : BufferedMessage) (now now2 : Nat) (parsed : ParsedMessage)
    (hT : s.hasTrigger = true) (hm : s.triggerMessage = some tm) :
    ((flushIfTriggered f s now).state =
      { s with
          buffer := []
          hasTrigger := false
          triggerMessage := none
          debounceTimer := none
          maxWaitTimer := none
          autoReplyTimer := none
          mode := Mode.realtime
          firstTriggerAt := none
          firstMessageAt := some now })
    ∧ ((flushIfTriggered f s now).emitted = [⟨s.chatId, s.buffer, some tm, false⟩])
    ∧ (∀ e, f ⟨s.chatId, s.buffer, some tm, false⟩ = Except.error e →
        (flushIfTriggered f s now).loggedErrors = ["BatchProcessor flush error: " ++ e])
    ∧ (f ⟨s.chatId, s.buffer, some tm, false⟩ = Except.ok () →
        (flushIfTriggered f s now).loggedErrors = [])
    ∧ ((flushIfTriggered g s now).state = (flushIfTriggered f s now).state)
    ∧ (s2.buffer ≠ [] →
        ((flushAutoReply f s2 now).state =
          { s2 with
              buffer := []
              hasTrigger := false
              triggerMessage := none
              debounceTimer := none
              maxWaitTimer := none
              autoReplyTimer := none
              mode := Mode.realtime
              firstTriggerAt := none
              firstMessageAt := some now })
        ∧ ((flushAutoReply f s2 now).emitted = [⟨s2.chatId, s2.buffer, none, true⟩])
        ∧ ((flushAutoReply g s2 now).state = (flushAutoReply f s2 now).state))
    ∧ ((processMessageState p (flushIfTriggered f s now).state parsed now2).buffer
        = [⟨parsed⟩]) := by
  have hf := flushIfTriggered_of_triggered f s now tm hT hm
  have hg := flushIfTriggered_of_triggered g s now tm hT hm
  refine ⟨by rw [hf], by rw [hf], ?_, ?_, by rw [hf, hg], fun hb => ?_, ?_⟩
  · intro e he
    rw [hf]
    simp [he]
  · intro he
    rw [hf]
    simp [he]
  · have haf := flushAutoReply_of_nonempty f s2 now hb
    have hag := flushAutoReply_of_nonempty g s2 now hb
    exact ⟨by rw [haf], by rw [haf], by rw [haf, hag]⟩
  · rw [processMessageState_buffer, hf]
    rfl

/-- Claim C4 witness: flushing the concrete triggered state with a throwing
`onFlush` clears the state, emits the payload once, and logs the error. -/
theorem flush_clears_state_before_handoff_witness :
    ((flushIfTriggered sampleOnFlushErr sampleTriggered 21000).state =
      { sampleTriggered with
          buffer := []
          hasTrigger := false
          triggerMessage := none
          debounceTimer := none
          maxWaitTimer := none
          autoReplyTimer := none
          mode := Mode.realtime
          firstTriggerAt := none
          firstMessageAt := some 21000 })
    ∧ ((flushIfTriggered sampleOnFlushErr sampleTriggered 21000).loggedErrors =
        ["BatchProcessor flush error: boom"]) :=
  have h := flush_clears_state_before_handoff sampleProcessor sampleOnFlushErr
    sampleOnFlushOk sampleTriggered sampleTriggered ⟨sampleMention⟩ 21000 22000
    samplePlain (by decide) (by decide)
  ⟨h.1, h.2.2.1 "boom" (by decide)⟩

/-! ### Claim C5 -/

/-- Claim C5: the invariant "`triggered == true` implies a trigger message is
present" holds for a fresh batch state and is preserved by `processMessage`,
by both flush bodies, by the auto-reply condition check, by every timer fire,
and (vacuously) by `dispose`, which drops all states. -/
theorem trigger_invariant_preserved (p : BatchProcessor)
    (f : FlushParams → Except String Unit) (s : ChatBatchState)
    (parsed : ParsedMessage) (now : Nat) (cid : String) (ca t : Nat)
    (h : TriggerInv s) :
    TriggerInv (processMessageState p s parsed now)
    ∧ TriggerInv (flushIfTriggered f s now).state
    ∧ TriggerInv (flushAutoReply f s now).state
    ∧ TriggerInv (checkAutoReplyConditions p f s now).state
    ∧ TriggerInv (fireDebounceTimer f s now).state
    ∧ TriggerInv (fireMaxWaitTimer f s now).state
    ∧ TriggerInv (fireAutoReplyTimer p f s now).state
    ∧ TriggerInv (initialChatState cid ca t) := by
  have hdeb : TriggerInv { s with debounceTimer := none } := h
  have hmw : TriggerInv { s with maxWaitTimer := none } := h
  have har : TriggerInv { s with autoReplyTimer := none } := h
  refine ⟨triggerInv_processMessageState p s parsed now h,
    triggerInv_flushIfTriggered f s now h,
    triggerInv_flushAutoReply f s now h,
    triggerInv_checkAutoReplyConditions p f s now h,
    triggerInv_flushIfTriggered f _ now hdeb,
    triggerInv_flushIfTriggered f _ now hmw,
    triggerInv_checkAutoReplyConditions p f _ now har,
    ?_⟩
  intro hc
  simp [initialChatState] at hc

/-- Claim C5 witness: the invariant theorem applied to the concrete triggered
state `sampleTriggered`. -/
theorem trigger_invariant_preserved_witness :
    TriggerInv (processMessageState sampleProcessor sampleTriggered samplePlain 21000)
    ∧ TriggerInv (flushIfTriggered sampleOnFlushOk sampleTriggered 21000).state :=
  have h := trigger_invariant_preserved sampleProcessor sampleOnFlushOk
    sampleTriggered samplePlain 21000 "c" 0 21000 (by decide)
  ⟨h.1, h.2.1⟩

/-! ### Claim C2 -/

/-- Claim C2: when the auto-reply debounce timer fires for an untriggered
batch, a flush is emitted iff `buffer.length >= minMessages` and
`now - firstMessageAt >= minTimeMs` jointly hold (given the schema's
constraint `minMessages >= 1`); when the count holds but time does not, a
timer is re-armed for exactly the remaining time — its callback being
`checkAutoReplyConditions` again, a re-check rather than a blind flush —
and when the count fails, no timer is armed and nothing is emitted. -/
theorem autoReply_fire_conditions (p : BatchProcessor)
    (f : FlushParams → Except String Unit) (s : ChatBatchState) (now : Nat)
    (hT : s.hasTrigger = false) (hMin : 1 ≤ p.autoReplyMinMessages) :
    ((fireAutoReplyTimer p f s now).emitted ≠ [] ↔
      (p.autoReplyMinMessages ≤ s.buffer.length ∧
        p.autoReplyMinTimeMs ≤ now - s.firstMessageAt.getD now))
    ∧ (p.autoReplyMinMessages ≤ s.buffer.length →
        p.autoReplyMinTimeMs ≤ now - s.firstMessageAt.getD now →
        (fireAutoReplyTimer p f s now).emitted = [⟨s.chatId, s.buffer, none, true⟩])
    ∧ (p.autoReplyMinMessages ≤ s.buffer.length →
        now - s.firstMessageAt.getD now < p.autoReplyMinTimeMs →
        fireAutoReplyTimer p f s now =
          ⟨{ s with autoReplyTimer := some (p.autoReplyMinTimeMs - (now - s.firstMessageAt.getD now)) }, [], []⟩)
    ∧ (s.buffer.length < p.autoReplyMinMessages →
        fireAutoReplyTimer p f s now = ⟨{ s with autoReplyTimer := none }, [], []⟩) := by
  have hbufne : p.autoReplyMinMessages ≤ s.buffer.length → s.buffer ≠ [] := by
    intro hc he
    rw [he] at hc
    simp at hc
    omega
  by_cases h1 : p.autoReplyMinMessages ≤ s.buffer.length
  · by_cases h2 : p.autoReplyMinTimeMs ≤ now - s.firstMessageAt.getD now
    · have hb : ({ s with autoReplyTimer := none } : ChatBatchState).buffer ≠ [] :=
        hbufne h1
      have hfl := flushAutoReply_of_nonempty f { s with autoReplyTimer := none } now hb
      have hrun : fireAutoReplyTimer p f s now =
          flushAutoReply f { s with autoReplyTimer := none } now := by
        rw [fireAutoReplyTimer, checkAutoReplyConditions]
        simp only [hT, Bool.false_eq_true, if_false]
        rw [if_pos ⟨h1, h2⟩]
      rw [hrun, hfl]
      refine ⟨by simp [h1, h2], fun _ _ => rfl, fun _ hc => absurd h2 (by omega),
        fun hc => absurd h1 (by omega)⟩
    · have hrun : fireAutoReplyTimer p f s now =
          ⟨{ s with autoReplyTimer := some (p.autoReplyMinTimeMs - (now - s.firstMessageAt.getD now)) }, [], []⟩ := by
        rw [fireAutoReplyTimer, checkAutoReplyConditions]
        simp only [hT, Bool.false_eq_true, if_false]
        rw [if_neg (fun hc => h2 hc.2), if_pos ⟨h1, by omega⟩]
        rw [scheduleTimeConditionCheck, clearAutoReplyTimer]
      rw [hrun]
      refine ⟨by simp [h2], fun _ hc => absurd hc h2, fun _ _ => rfl,
        fun hc => absurd h1 (by omega)⟩
  · have hrun : fireAutoReplyTimer p f s now =
        ⟨{ s with autoReplyTimer := none }, [], []⟩ := by
      rw [fireAutoReplyTimer, checkAutoReplyConditions]
      simp only [hT, Bool.false_eq_true, if_false]
      rw [if_neg (fun hc => h1 hc.1), if_neg (fun hc => h1 hc.1)]
    rw [hrun]
    exact ⟨by simp [h1], fun hc => absurd hc h1, fun hc => absurd hc h1, fun _ => rfl⟩

/-- Claim C2 witness: five buffered messages and a minute elapsed on the
default auto-reply configuration make the fired check emit exactly one
auto-reply payload. -/
theorem autoReply_fire_conditions_witness :
    (fireAutoReplyTimer sampleAutoProcessor sampleOnFlushOk
      { chatId := "c"
        mode := Mode.realtime
        buffer := List.replicate 5 ⟨samplePlain⟩
        hasTrigger := false
        triggerMessage := none
        debounceTimer := none
        maxWaitTimer := none
        autoReplyTimer := some 3000
        lastMessageAt := 65000
        startupEndsAt := 10000
        firstTriggerAt := none
        firstMessageAt := some 0 } 70000).emitted =
      [⟨"c", List.replicate 5 ⟨samplePlain⟩, none, true⟩] :=
  (autoReply_fire_conditions sampleAutoProcessor sampleOnFlushOk _ 70000
    (by decide) (by decide)).2.1 (by decide) (by decide)

/-! ### Claim C6 -/

/-- Claim C6: draining a chat's idle queue executes the pending tasks exactly
in enqueue (FIFO) order, logs an error for each throwing task while still
running the tasks after it, and deletes the chat's queue entry afterwards;
enqueueing onto a busy queue appends to the tail of the pending list. -/
theorem serial_queue_fifo (qs : List (String × ChatQueue)) (chatId : String)
    (ts : List QTask) (t : QTask)
    (hIdle : mapLookup qs chatId = some ⟨ts, false⟩) :
    (processQueue qs chatId =
      (mapErase qs chatId, ts.map QTask.id,
        ts.filterMap fun tk =>
          match tk.run with
          | Except.ok _ => none
          | Except.error e => some ("Gateway queue error: " ++ e)))
    ∧ (mapLookup (processQueue qs chatId).1 chatId = none)
    ∧ (∀ (qs2 : List (String × ChatQueue)) (ts2 : List QTask),
        mapLookup qs2 chatId = some ⟨ts2, true⟩ →
        enqueueMessage qs2 chatId t = (mapInsert qs2 chatId ⟨ts2 ++ [t], true⟩, [], [])) := by
  have h1 : processQueue qs chatId =
      (mapErase qs chatId, ts.map QTask.id,
        ts.filterMap fun tk =>
          match tk.run with
          | Except.ok _ => none
          | Except.error e => some ("Gateway queue error: " ++ e)) := by
    rw [processQueue, hIdle]
    simp only [if_neg Bool.false_ne_true]
    rw [drainTasks_fst, drainTasks_snd]
  refine ⟨h1, ?_, fun qs2 ts2 hBusy => ?_⟩
  · rw [h1]
    exact mapLookup_erase_self qs chatId
  · rw [enqueueMessage, hBusy]
    rfl

/-- Claim C6 witness: a two-task queue (the first succeeding, the second
throwing) drains in order `[1, 2]` with one logged error and the entry
deleted; enqueueing onto a busy queue appends. -/
theorem serial_queue_fifo_witness :
    (processQueue [("c", ⟨[⟨1, Except.ok ()⟩, ⟨2, Except.error "x"⟩], false⟩)] "c" =
      ([], [1, 2], ["Gateway queue error: x"]))
    ∧ (enqueueMessage [("c", ⟨[⟨1, Except.ok ()⟩], true⟩)] "c" ⟨2, Except.ok ()⟩ =
      ([("c", ⟨[⟨1, Except.ok ()⟩, ⟨2, Except.ok ()⟩], true⟩)], [], [])) :=
  have h := serial_queue_fifo [("c", ⟨[⟨1, Except.ok ()⟩, ⟨2, Except.error "x"⟩], false⟩)]
    "c" [⟨1, Except.ok ()⟩, ⟨2, Except.error "x"⟩] ⟨2, Except.ok ()⟩ (by decide)
  ⟨by rw [h.1]; decide,
    by rw [h.2.2 [("c", ⟨[⟨1, Except.ok ()⟩], true⟩)] [⟨1, Except.ok ()⟩] (by decide)]; decide⟩

/-! ### Claim C8 -/

/-- Claim C8: the first duplicate-check of a fresh id records it and returns
`false`; any check of an id present in the ledger returns `true` and leaves
the ledger unchanged (so the second call with the same id does); and once a
sweep whose cutoff has passed the recorded time deletes the entry, a check of
that id returns `false` again (recording it anew, so later calls return
`true` once more). -/
theorem dedup_idempotent (m : List (String × Nat)) (id : String)
    (now t1 t2 : Nat) (h : mapLookup m id = none) :
    (isDuplicateEvent m id now = (false, mapInsert m id now))
    ∧ (∀ m2 : List (String × Nat), (mapLookup m2 id).isSome = true →
        isDuplicateEvent m2 id t1 = (true, m2))
    ∧ (isDuplicateEvent (mapInsert m id now) id t1 = (true, mapInsert m id now))
    ∧ (now < t2 - DEDUP_WINDOW_MS →
        mapLookup (dedupSweep (mapInsert m id now) t2) id = none
        ∧ (isDuplicateEvent (dedupSweep (mapInsert m id now) t2) id t1 =
            (false, mapInsert (dedupSweep (mapInsert m id now) t2) id t1))) := by
  have hdup : ∀ m2 : List (String × Nat), (mapLookup m2 id).isSome = true →
      isDuplicateEvent m2 id t1 = (true, m2) := by
    intro m2 h2
    rw [isDuplicateEvent, if_pos h2]
  refine ⟨?_, hdup, ?_, fun hexp => ?_⟩
  · rw [isDuplicateEvent, if_neg]
    rw [h]
    simp
  · exact hdup _ (by rw [mapLookup_insert_self]; rfl)
  · have hgone := mapLookup_sweep_insert_expired h now t2 hexp
    refine ⟨hgone, ?_⟩
    rw [isDuplicateEvent, if_neg]
    rw [hgone]
    simp

/-- Claim C8 witness: the dedup theorem at a fresh ledger, id `"e1"`, and a
sweep one day later. -/
theorem dedup_idempotent_witness :
    (isDuplicateEvent [] "e1" 5 = (false, [("e1", 5)]))
    ∧ (isDuplicateEvent [("e1", 5)] "e1" 6 = (true, [("e1", 5)]))
    ∧ (mapLookup (dedupSweep [("e1", 5)] (DEDUP_WINDOW_MS + 10)) "e1" = none) :=
  have h := dedup_idempotent [] "e1" 5 6 (DEDUP_WINDOW_MS + 10) rfl
  ⟨by rw [h.1]; rfl,
    by rw [show ([("e1", 5)] : List (String × Nat)) = mapInsert [] "e1" 5 from rfl, h.2.2.1],
    by rw [show ([("e1", 5)] : List (String × Nat)) = mapInsert [] "e1" 5 from rfl,
      (h.2.2.2 (by decide)).1]⟩

/-! ### Claim C10 -/

/-- Claim C10 (amended): an inbound event carrying neither an `event_id` nor a
`message.message_id` never consults the dedup ledger: the ledger is not read
or written and the event is never rejected as a duplicate.  (Repeated
identical deliveries are therefore not deduplicated, though they may still be
dropped by the watermark or max-age filters rather than being processed.) -/
theorem idless_event_skips_dedup (pe wm : List (String × Nat))
    (e : InboundEvent) (now : Nat)
    (h1 : e.eventId = none) (h2 : e.messageId = none) :
    ((handleReceive pe wm e now).dedupChecked = false)
    ∧ ((handleReceive pe wm e now).processedEvents = pe)
    ∧ ((handleReceive pe wm e now).outcome ≠ InboundOutcome.droppedDuplicate) := by
  have hk : dedupKeyOf e = none := by rw [dedupKeyOf, h1, h2]
  rw [handleReceive, hk]
  simp only [optStrTruthy, Bool.false_eq_true, if_false]
  rw [handleReceiveAfterDedup]
  refine ⟨?_, ?_, ?_⟩ <;> (split <;> (try split) <;> simp)

/-- Claim C10 witness: the skip-dedup theorem applied to a concrete id-less
event arriving over a non-empty ledger, which it leaves untouched. -/
theorem idless_event_skips_dedup_witness :
    ((handleReceive [("x", 1)] [] ⟨none, none, some "c", some 5⟩
        100000).dedupChecked = false)
    ∧ ((handleReceive [("x", 1)] [] ⟨none, none, some "c", some 5⟩
        100000).processedEvents = [("x", 1)]) :=
  have h := idless_event_skips_dedup [("x", 1)] []
    ⟨none, none, some "c", some 5⟩ 100000 rfl rfl
  ⟨h.1, h.2.1⟩

/-- Claim C10 counterexample: the same id-less event delivered twice — the
first delivery is enqueued, but the second is dropped by the watermark filter,
so "is processed even if the identical event is delivered multiple times"
fails. -/
theorem idless_event_second_delivery_dropped_cex :
    ((handleReceive [] [] ⟨none, none, some "c", some 5⟩ 100000).outcome
      = InboundOutcome.enqueued "c")
    ∧ ((handleReceive
        (handleReceive [] [] ⟨none, none, some "c", some 5⟩ 100000).processedEvents
        (handleReceive [] [] ⟨none, none, some "c", some 5⟩ 100000).chatWatermarks
        ⟨none, none, some "c", some 5⟩ 100000).outcome
      = InboundOutcome.droppedStale) := by decide

/-- Claim C7 (corrected): per-chat watermarks are monotonically non-decreasing
and updating with `t` yields `max(current, t)`; a message whose create time is
at most its chat's watermark is never enqueued toward the batch state machine;
and a message with create time above the watermark is enqueued with the
watermark advanced before hand-off — but only provided it also passes the
dedup gate and the absolute max-age filter (the part the original claim
omitted). -/
theorem watermark_monotone_and_gating (wm pe : List (String × Nat))
    (c : String) (t now : Nat) (e : InboundEvent)
    (hc : e.chatId = some c) (hcne : c ≠ "")
    (hct : e.createTime = some t) (htne : t ≠ 0) :
    ((mapLookup (updateWatermark wm c t) c).getD 0 = max ((mapLookup wm c).getD 0) t)
    ∧ ((mapLookup wm c).getD 0 ≤ (mapLookup (updateWatermark wm c t) c).getD 0)
    ∧ (t ≤ (mapLookup wm c).getD 0 →
        ∀ q, (handleReceive pe wm e now).outcome ≠ InboundOutcome.enqueued q)
    ∧ ((mapLookup wm c).getD 0 < t →
        now - t ≤ MAX_MESSAGE_AGE_MS →
        (∀ k, dedupKeyOf e = some k → k ≠ "" → mapLookup pe k = none) →
        (handleReceive pe wm e now).outcome = InboundOutcome.enqueued c
        ∧ mapLookup (handleReceive pe wm e now).chatWatermarks c = some t) := by
  have hmax : (mapLookup (updateWatermark wm c t) c).getD 0 =
      max ((mapLookup wm c).getD 0) t := by
    rw [updateWatermark]
    by_cases hlt : (mapLookup wm c).getD 0 < t
    · rw [if_pos hlt, mapLookup_insert_self]
      simp [Nat.max_eq_right (Nat.le_of_lt hlt)]
    · rw [if_neg hlt]
      simp [Nat.max_eq_left (Nat.le_of_not_lt hlt)]
  refine ⟨hmax, by rw [hmax]; exact Nat.le_max_left _ _, fun hstale q => ?_,
    fun hfresh hage hpass => ?_⟩
  · rw [handleReceive_eq]
    cases hk : dedupKeyOf e with
    | none =>
      rw [handleReceiveAfterDedup_stale pe wm e now false c t hc hcne hct htne hstale]
      simp
    | some k =>
      by_cases hke : k = ""
      · simp only [hke, if_pos rfl]
        rw [handleReceiveAfterDedup_stale pe wm e now false c t hc hcne hct htne hstale]
        simp
      · simp only [hke, if_neg]
        by_cases hdup : (mapLookup pe k).isSome
        · simp [hdup]
        · simp only [hdup, Bool.false_eq_true, if_false]
          rw [handleReceiveAfterDedup_stale _ wm e now true c t hc hcne hct htne hstale]
          simp
  · rw [handleReceive_eq]
    cases hk : dedupKeyOf e with
    | none =>
      rw [handleReceiveAfterDedup_fresh pe wm e now false c t hc hcne hct htne hfresh hage]
      exact ⟨rfl, mapLookup_insert_self wm c t⟩
    | some k =>
      by_cases hke : k = ""
      · simp only [hke, if_pos rfl]
        rw [handleReceiveAfterDedup_fresh pe wm e now false c t hc hcne hct htne hfresh hage]
        exact ⟨rfl, mapLookup_insert_self wm c t⟩
      · have hpe := hpass k hk hke
        simp only [hke, if_neg, hpe, Option.isSome_none, Bool.false_eq_true, if_false]
        rw [handleReceiveAfterDedup_fresh _ wm e now true c t hc hcne hct htne hfresh hage]
        exact ⟨rfl, mapLookup_insert_self wm c t⟩

/-- Claim C7 witness: a fresh, recent message on an empty watermark map is
enqueued and advances the watermark to its create time; updating an empty
watermark yields the maximum. -/
theorem watermark_monotone_and_gating_witness :
    ((mapLookup (updateWatermark [] "c" 5) "c").getD 0 = max 0 5)
    ∧ ((handleReceive [] [] ⟨some "e", none, some "c", some 5⟩ 100000).outcome
        = InboundOutcome.enqueued "c")
    ∧ (mapLookup (handleReceive [] [] ⟨some "e", none, some "c", some 5⟩
        100000).chatWatermarks "c" = some 5) :=
  have h := watermark_monotone_and_gating [] [] "c" 5 100000
    ⟨some "e", none, some "c", some 5⟩ rfl (by decide) rfl (by decide)
  have h4 := h.2.2.2 (by decide) (by decide) (by intro k hk hke; cases hk; rfl)
  ⟨h.1, h4.1, h4.2⟩

/-- Claim C7 counterexample: a message with create time 1 — strictly above the
(empty) watermark — arriving at t = 400000 is dropped by the max-age fallback
and the watermark is not advanced, contradicting "a message with createTime >
watermark advances the watermark and is processed". -/
theorem watermark_fresh_message_dropped_cex :
    ((mapLookup ([] : List (String × Nat)) "c").getD 0 < 1)
    ∧ ((handleReceive [] [] ⟨some "e", none, some "c", some 1⟩ 400000).outcome
        = InboundOutcome.droppedOld)
    ∧ (mapLookup (handleReceive [] [] ⟨some "e", none, some "c", some 1⟩
        400000).chatWatermarks "c" = none) := by decide

end FeishuPlugin
